import Mathlib

/-!
Verification of the chunked gradient-combination and coordinate-bookkeeping
engine of the `aind-z1-cell-segmentation` repository.

The embedding follows the source files:
- `code/cell_segmentation/cellpose_segmentation/combine_gradients.py`
- `code/cell_segmentation/cellpose_segmentation/predict_gradients.py`
- `code/cell_segmentation/segment.py`

Numeric values (numpy float32 tensors) are modelled as rationals so the
channel-addition arithmetic is exact; a chunk's voxel payload is modelled as
a function from spatial voxels to values, indexed by per-axis and per-channel
`Fin 3` indices exactly as the 5-dimensional numpy array `data` is indexed
in `combine_gradients`.  Persistent zarr stores are modelled as total
functions from indices to values, and a coordinate-addressed write as a
pointwise update on the written region.
-/

namespace AindZ1

/-! ## GradientCombiner: the per-chunk math of `combine_gradients` -/

/-- The fixed probability threshold `cellprob_threshold = 0.0` from
`combine_gradients.py` line 188. -/
def cellprob_threshold : ℚ := 0

/-- The combined flow field `dP` of `combine_gradients.py` lines 207-214:
`np.stack((data[1][0] + data[2][0], data[0][0] + data[2][1],
data[0][1] + data[1][1]), axis=0)`.  `data a c` is channel `c` of the
axis-`a` derivative volume; channel 2 (`-1` in numpy) is the probability. -/
def dP {V : Type} (data : Fin 3 → Fin 3 → V → ℚ) : Fin 3 → V → ℚ
  | 0, v => data 1 0 v + data 2 0 v
  | 1, v => data 0 0 v + data 2 1 v
  | 2, v => data 0 1 v + data 1 1 v

/-- The probability sum `data[0][-1] + data[1][-1] + data[2][-1]` from
`combine_gradients.py` line 218 (channel `-1` of a 3-channel volume is
channel 2). -/
def probability_sum {V : Type} (data : Fin 3 → Fin 3 → V → ℚ) (v : V) : ℚ :=
  data 0 2 v + data 1 2 v + data 2 2 v

/-- The cell-probability mask of `combine_gradients.py` lines 217-219:
`(data[0][-1] + data[1][-1] + data[2][-1] > cellprob_threshold).astype(np.uint8)`.
Casting the boolean to `uint8` yields 1 for true and 0 for false. -/
def cell_probability {V : Type} (data : Fin 3 → Fin 3 → V → ℚ) (v : V) : ℕ :=
  if cellprob_threshold < probability_sum data v then 1 else 0

/-- The masked flow field `dP_masked = dP * cell_probability` of
`combine_gradients.py` line 222 (the mask broadcasts over the 3 flow
channels). -/
def dP_masked {V : Type} (data : Fin 3 → Fin 3 → V → ℚ) (c : Fin 3) (v : V) : ℚ :=
  dP data c v * (cell_probability data v : ℚ)

/-- The synthetic single-voxel input of the end-to-end scenario: axis 0
contributes derivatives (1, 2) and probability 0.4, axis 1 contributes
(3, 4) and 0.3, axis 2 contributes (5, 6) and 0.2. -/
def exampleData : Fin 3 → Fin 3 → Unit → ℚ := fun a c _ =>
  match a, c with
  | 0, 0 => 1
  | 0, 1 => 2
  | 0, 2 => 4/10
  | 1, 0 => 3
  | 1, 1 => 4
  | 1, 2 => 3/10
  | 2, 0 => 5
  | 2, 1 => 6
  | 2, 2 => 2/10

/-- An all-zero input volume, used to exercise the zero-probability case. -/
def zeroData : Fin 3 → Fin 3 → Unit → ℚ := fun _ _ _ => 0

/-! ## CoordinateMapper: global coordinates, recovery and clamping -/

/-- A half-open index range `[start, stop)` along one array dimension, the
shallow embedding of a Python `slice(start, stop)`. -/
structure Slice where
  start : ℕ
  stop : ℕ
deriving DecidableEq, Repr

/-- Modelled from the spec: the external data loader's
`recover_global_position` maps (super-chunk slice, internal slice) to the
global coordinate per axis, `stop` being the naive sum of the super-chunk
offset and the internal slice bound (the spec: for interior chunks `stop`
equals the naive sum of offsets, and starts are per-axis sums likewise). -/
def recoverSlice (superSlice internal : Slice) : Slice :=
  ⟨superSlice.start + internal.start, superSlice.start + internal.stop⟩

/-- The boundary clamp of `predict_gradients.py` lines 452-459: on each of
the trailing 3 spatial dimensions, if the dimension size is smaller than
the recovered stop, the slice is replaced by one with the same start and
stop equal to the dimension size. -/
def clampStop (dim : ℕ) (s : Slice) : Slice :=
  if dim < s.stop then ⟨s.start, dim⟩ else s

/-- The trailing-3-dimension spatial write coordinate of the prediction
stage: recovery followed by the per-dimension clamp (dimension `d` stands
for the `d - 3`-th-from-the-end axis, `d = 0` being Z). -/
def predictSpatialCoord (shape : Fin 3 → ℕ) (superSlice internal : Fin 3 → Slice)
    (d : Fin 3) : Slice :=
  clampStop (shape d) (recoverSlice (superSlice d) (internal d))

/-- The trailing-3-dimension spatial write coordinate of the combination
stage, `combine_gradients.py` lines 225-232: `global_coord_pos[-3:]` as
recovered, with no clamp applied anywhere in the loop body. -/
def combineSpatialCoord (superSlice internal : Fin 3 → Slice) (d : Fin 3) : Slice :=
  recoverSlice (superSlice d) (internal d)

/-! ## OutputArrayManager: store specifications and coordinate-addressed writes -/

/-- The element dtypes used by the output stores. -/
inductive Dtype
  | float32
  | uint8
deriving DecidableEq, Repr

/-- Whether a dtype is a floating-point type. -/
def Dtype.isFloatingPoint : Dtype → Bool
  | .float32 => true
  | .uint8 => false

/-- Whether a dtype is an unsigned byte type. -/
def Dtype.isUnsignedByte : Dtype → Bool
  | .float32 => false
  | .uint8 => true

/-- The creation parameters of a chunked zarr store: global shape, chunk
shape and dtype. -/
structure ZarrStoreSpec where
  shape : List ℕ
  chunks : List ℕ
  dtype : Dtype
deriving DecidableEq, Repr

/-- Python `t[-3:]`: the trailing three elements of a shape tuple, as used
in `zarr_dataset.lazy_data.shape[-3:]` and `prediction_chunksize[-3:]`. -/
def lastThree (l : List ℕ) : List ℕ :=
  l.drop (l.length - 3)

/-- The trailing three elements as the spec words them ("the trailing 3
dimensions"): reverse, take three, reverse back.  Used as the independent
spec-side formulation compared against `lastThree`. -/
def trailingThree (l : List ℕ) : List ℕ :=
  (l.reverse.take 3).reverse

/-- The flow-field store created by `combine_gradients.py` lines 154-160:
shape `(3,) + lazy_data.shape[-3:]`, chunks `(1,) + prediction_chunksize[-3:]`,
dtype `np.float32`. -/
def output_combined_gradients_spec (lazyShape prediction_chunksize : List ℕ) :
    ZarrStoreSpec :=
  { shape := 3 :: lastThree lazyShape
    chunks := 1 :: lastThree prediction_chunksize
    dtype := .float32 }

/-- The cell-probability store created by `combine_gradients.py` lines
162-168: shape `lazy_data.shape[-3:]`, chunks `prediction_chunksize[-3:]`,
dtype `np.uint8`. -/
def output_cellprob_spec (lazyShape prediction_chunksize : List ℕ) : ZarrStoreSpec :=
  { shape := lastThree lazyShape
    chunks := lastThree prediction_chunksize
    dtype := .uint8 }

/-- How a prediction pass attaches to the gradients store,
`predict_gradients.py` lines 357-384. -/
inductive StoreAction
  | createWrite (spec : ZarrStoreSpec)
  | openAppend
deriving DecidableEq, Repr

/-- The store action of the axis-`axis` prediction pass: on axis 0 the
store is created (`zarr.open(..., "w", ...)`) with shape
`(3, 3) + lazy_data.shape` and chunks `(1, 3) + prediction_chunksize`,
dtype `np.float32`; on any other axis it is reopened in append mode
(`zarr.open(..., "a")`). -/
def predictStoreAction (axis : ℕ) (lazyShape prediction_chunksize : List ℕ) :
    StoreAction :=
  if axis = 0 then
    .createWrite
      { shape := 3 :: 3 :: lazyShape
        chunks := 1 :: 3 :: prediction_chunksize
        dtype := .float32 }
  else
    .openAppend

/-- A spatial voxel index over the trailing 3 dimensions. -/
abbrev Vox := Fin 3 → ℕ

/-- Membership of an index in a slice's half-open range. -/
def inSlice (s : Slice) (i : ℕ) : Bool :=
  decide (s.start ≤ i) && decide (i < s.stop)

/-- Membership of a voxel in a 3-dimensional spatial coordinate region. -/
def inCoord3 (c : Fin 3 → Slice) (v : Vox) : Bool :=
  inSlice (c 0) (v 0) && inSlice (c 1) (v 1) && inSlice (c 2) (v 2)

/-- The 5-dimensional gradients store of the prediction stage, indexed by
leading axis slab, channel and spatial voxel. -/
abbrev GradStore := ℕ → ℕ → Vox → ℚ

/-- A full write coordinate into the gradients store: the leading axis-slab
slice, the channel slice, and the trailing 3 spatial slices. -/
structure GradWriteCoord where
  axSlice : Slice
  chSlice : Slice
  spatial : Fin 3 → Slice

/-- The write coordinate of `predict_gradients.py` line 435,
`global_coord_pos = (slice(axis, axis + 1), slice(0, 3)) + global_coord_pos`,
followed by the clamp of lines 450-461 which touches only the trailing 3
spatial dimensions. -/
def predictWriteCoord (axis : ℕ) (shape : Fin 3 → ℕ)
    (superSlice internal : Fin 3 → Slice) : GradWriteCoord :=
  { axSlice := ⟨axis, axis + 1⟩
    chSlice := ⟨0, 3⟩
    spatial := predictSpatialCoord shape superSlice internal }

/-- The coordinate-addressed write
`output_gradients[global_coord_pos] = values`: voxels inside the region
take the corresponding value, all others keep the previous store content. -/
def writeGradRegion (store : GradStore) (coord : GradWriteCoord)
    (vals : ℕ → ℕ → Vox → ℚ) : GradStore :=
  fun a c v =>
    if inSlice coord.axSlice a && inSlice coord.chSlice c &&
        inCoord3 coord.spatial v then
      vals (a - coord.axSlice.start) (c - coord.chSlice.start)
        (fun d => v d - (coord.spatial d).start)
    else store a c v

/-! ## ChunkStreamController: the per-batch loops of the two stages -/

/-- One batch of the prediction stage: the in-memory shape of
`sample.batch_tensor.numpy()[0, ...]`, the super-chunk and internal slices
of its trailing 3 spatial dimensions, and the inference output `y` (the
external engine's prediction, opaque here). -/
structure PredictBatch where
  dataShape : List ℕ
  superSlice : Fin 3 → Slice
  internal : Fin 3 → Slice
  y : ℕ → ℕ → Vox → ℚ

/-- One iteration of the prediction loop, `predict_gradients.py` lines
416-464: when the in-memory shape differs from the expected prediction
chunk shape the batch is logged ("Non-uniform block of data...") and
skipped (`continue`), leaving the store untouched; otherwise the inference
output is written at the clamped global coordinate. -/
def predictIter (prediction_chunksize : List ℕ) (axis : ℕ) (shape : Fin 3 → ℕ)
    (store : GradStore) (b : PredictBatch) : GradStore :=
  if b.dataShape ≠ prediction_chunksize then store
  else
    writeGradRegion store (predictWriteCoord axis shape b.superSlice b.internal) b.y

/-- The cell-probability store of the combination stage. -/
abbrev CellprobStore := Vox → ℕ

/-- The 4-dimensional flow-field store of the combination stage, indexed by
flow channel and spatial voxel. -/
abbrev FlowStore := ℕ → Vox → ℚ

/-- One batch of the combination stage: the in-memory shape of
`np.squeeze(sample.batch_tensor.numpy(), axis=0)`, the super-chunk and
internal slices of the trailing 3 spatial dimensions, and the 3-axis,
3-channel voxel payload `data`. -/
structure CombineBatch where
  dataShape : List ℕ
  superSlice : Fin 3 → Slice
  internal : Fin 3 → Slice
  data : Fin 3 → Fin 3 → Vox → ℚ

/-- Coordinate-addressed write into the cell-probability store,
`output_cellprob[cellprob_coord_pos] = cell_probability`. -/
def writeCellprobRegion (store : CellprobStore) (coord : Fin 3 → Slice)
    (vals : Vox → ℕ) : CellprobStore :=
  fun v =>
    if inCoord3 coord v then vals (fun d => v d - (coord d).start) else store v

/-- Coordinate-addressed write into the flow-field store,
`output_combined_gradients[(slice(0, 3),) + global_coord_pos[-3:]] = dP_masked`. -/
def writeFlowRegion (store : FlowStore) (chSlice : Slice) (coord : Fin 3 → Slice)
    (vals : ℕ → Vox → ℚ) : FlowStore :=
  fun c v =>
    if inSlice chSlice c && inCoord3 coord v then
      vals (c - chSlice.start) (fun d => v d - (coord d).start)
    else store c v

/-- One iteration of the combination loop acting on the cell-probability
store, `combine_gradients.py` lines 190-227: the mask is computed and
written at the recovered (unclamped) spatial coordinate unconditionally —
the loop body contains no shape guard and no `continue`. -/
def combineIterCellprob (store : CellprobStore) (b : CombineBatch) : CellprobStore :=
  writeCellprobRegion store (combineSpatialCoord b.superSlice b.internal)
    (cell_probability b.data)

/-- One iteration of the combination loop acting on the flow-field store,
`combine_gradients.py` lines 229-232: `dP_masked` is written at
`(slice(0, 3),) + global_coord_pos[-3:]` unconditionally. -/
def combineIterFlow (store : FlowStore) (b : CombineBatch) : FlowStore :=
  writeFlowRegion store ⟨0, 3⟩ (combineSpatialCoord b.superSlice b.internal)
    (fun c v => if h : c < 3 then dP_masked b.data ⟨c, h⟩ v else 0)

/-- A concrete combination batch whose in-memory shape `(3, 3, 1, 1, 1)`
does not match the expected prediction chunk shape `(3, 3, 128, 128, 128)`
and whose probability channels are everywhere 1. -/
def mismatchCombineBatch : CombineBatch :=
  { dataShape := [3, 3, 1, 1, 1]
    superSlice := fun _ => ⟨0, 2⟩
    internal := fun _ => ⟨0, 1⟩
    data := fun _ c _ => if c = 2 then 1 else 0 }

/-! ## Stage prologues: the worker-count configuration guard -/

/-- The observable I/O steps of a stage prologue. -/
inductive StageEvent
  | logger_created
  | data_loader_created
  | output_store_created
  | output_store_opened
deriving DecidableEq, Repr

/-- The prologue of `combine_gradients` (`combine_gradients.py` lines
77-168): the worker-count guard at lines 77-80 runs first; when it fires a
`ValueError` is raised (second component `true`) and nothing else happens;
otherwise the logger is created (line 82), the data loader is built (line
134) and the two output stores are created (lines 154, 162).  The first
component lists the I/O events performed, in order. -/
def combine_gradients_prologue (n_workers co_cpus : ℕ) : List StageEvent × Bool :=
  if n_workers > co_cpus then ([], true)
  else
    ([.logger_created, .data_loader_created, .output_store_created,
      .output_store_created], false)

/-- The prologue of `large_scale_cellpose_gradients_per_axis`
(`predict_gradients.py` lines 283-384): the worker-count guard at lines
285-288 runs first; when it fires a `ValueError` is raised and nothing else
happens; otherwise the logger is created (line 290), the data loader is
built (line 338) and the gradients store is created or reopened (lines
359-384). -/
def predict_gradients_prologue (n_workers co_cpus : ℕ) : List StageEvent × Bool :=
  if n_workers > co_cpus then ([], true)
  else ([.logger_created, .data_loader_created, .output_store_opened], false)

/-! ## PipelineDriver: `segment.py` -/

/-- The observable outcome of a call to the driver `segment`. -/
inductive SegmentResult
  | raisedConfigError
  | ranPipeline
  | printedPathsDoNotExist
deriving DecidableEq, Repr

/-- The driver `segment` of `segment.py` lines 55-165.  Lines 57-58 read
`if not len_datasets: ValueError("Please, provide valid paths. Empty list!")`:
the exception object is constructed and immediately discarded — there is no
`raise` statement — so execution always continues to the
`if len_datasets and os.path.exists(results_folder)` test at line 61,
running the four pipeline stages when it holds and otherwise printing
"Provided paths do not exist!" (line 165) and returning normally. -/
def segment (dataset_paths : List String) (results_folder_exists : Bool) :
    SegmentResult :=
  let len_datasets := dataset_paths.length
  if len_datasets != 0 && results_folder_exists then .ranPipeline
  else .printedPathsDoNotExist

end AindZ1

namespace AindZ1

/-- C1: the combined flow field is computed by the fixed channel-addition
rule (sums, not averages or maxima): `dZ = data[1][0] + data[2][0]`,
`dY = data[0][0] + data[2][1]`, `dX = data[0][1] + data[1][1]`, and the
probability sum is `data[0][-1] + data[1][-1] + data[2][-1]`; on the
synthetic voxel where axis 0 contributes (1,2,0.4), axis 1 contributes
(3,4,0.3) and axis 2 contributes (5,6,0.2), the result is dZ=8, dY=7, dX=6,
probability sum 0.9, and with threshold 0.0 the masked gradient is (8,7,6). -/
theorem C1_combination_rule {V : Type} (data : Fin 3 → Fin 3 → V → ℚ) (v : V) :
    (dP data 0 v = data 1 0 v + data 2 0 v ∧
     dP data 1 v = data 0 0 v + data 2 1 v ∧
     dP data 2 v = data 0 1 v + data 1 1 v ∧
     probability_sum data v = data 0 2 v + data 1 2 v + data 2 2 v) ∧
    (dP exampleData 0 () = 8 ∧ dP exampleData 1 () = 7 ∧ dP exampleData 2 () = 6 ∧
     probability_sum exampleData () = 9/10 ∧
     cellprob_threshold = 0 ∧
     cell_probability exampleData () = 1 ∧
     dP_masked exampleData 0 () = 8 ∧
     dP_masked exampleData 1 () = 7 ∧
     dP_masked exampleData 2 () = 6) := by
  refine ⟨⟨rfl, rfl, rfl, rfl⟩, ?_⟩
  refine ⟨by norm_num [dP, exampleData], by norm_num [dP, exampleData],
    by norm_num [dP, exampleData], by norm_num [probability_sum, exampleData],
    rfl, ?_, ?_, ?_, ?_⟩ <;>
    norm_num [dP_masked, cell_probability, probability_sum, cellprob_threshold,
      dP, exampleData]

/-- C2: the masked gradient satisfies
`MaskedGradient[c] = CombinedGradient[c] * Mask` elementwise, exactly, for
each of the 3 flow channels; hence every voxel where the mask is zero
carries exactly zero flow in every channel. -/
theorem C2_masked_gradient {V : Type} (data : Fin 3 → Fin 3 → V → ℚ)
    (c : Fin 3) (v : V) :
    dP_masked data c v = dP data c v * (cell_probability data v : ℚ) ∧
    (cell_probability data v = 0 → dP_masked data c v = 0) := by
  refine ⟨rfl, fun h => ?_⟩
  simp [dP_masked, h]

/-- Closed instance of `C2_masked_gradient`: on the all-zero volume the mask
is 0 and all three masked flow channels are exactly 0. -/
theorem C2_masked_gradient_witness :
    dP_masked zeroData 0 () = dP zeroData 0 () * (cell_probability zeroData () : ℚ) ∧
    (cell_probability zeroData () = 0 → dP_masked zeroData 0 () = 0) :=
  C2_masked_gradient zeroData 0 ()

/-- C3: the cell-probability mask is the strict comparison
`probability_sum > 0.0` with the threshold fixed at 0.0: a voxel whose
probability sum is exactly 0 is excluded, and any strictly positive sum is
included. -/
theorem C3_strict_threshold {V : Type} (data : Fin 3 → Fin 3 → V → ℚ) (v : V) :
    cellprob_threshold = 0 ∧
    (cell_probability data v = 1 ↔ 0 < probability_sum data v) ∧
    (probability_sum data v = 0 → cell_probability data v = 0) ∧
    (0 < probability_sum data v → cell_probability data v = 1) := by
  refine ⟨rfl, ?_, ?_, ?_⟩
  · simp [cell_probability, cellprob_threshold]
  · intro h
    simp [cell_probability, cellprob_threshold, h]
  · intro h
    simp [cell_probability, cellprob_threshold, h]

/-- Closed instance of `C3_strict_threshold`: the all-zero volume has
probability sum exactly 0 and mask value 0. -/
theorem C3_strict_threshold_witness :
    cellprob_threshold = 0 ∧
    (cell_probability zeroData () = 1 ↔ 0 < probability_sum zeroData ()) ∧
    (probability_sum zeroData () = 0 → cell_probability zeroData () = 0) ∧
    (0 < probability_sum zeroData () → cell_probability zeroData () = 1) :=
  C3_strict_threshold zeroData ()

/-- C4 counterexample: for the chunk with super-chunk slice `[8, 16)` and
internal slice `[0, 4)` on a dimension of size 10, the recovered stop 12
exceeds the dimension, yet the coordinate the combination stage uses for
its write keeps stop 12 — the combination loop performs no clamping, so
the claim that clamping applies to the write coordinates of both the
prediction and combination stages is false. -/
theorem C4_counterexample :
    10 < (recoverSlice ⟨8, 16⟩ ⟨0, 4⟩).stop ∧
    (combineSpatialCoord (fun _ => ⟨8, 16⟩) (fun _ => ⟨0, 4⟩) 0).stop = 12 ∧
    ((combineSpatialCoord (fun _ => ⟨8, 16⟩) (fun _ => ⟨0, 4⟩) 0).stop = 10) = False := by
  refine ⟨by decide, by decide, eq_false (by decide)⟩

/-- C4 (amended): in the prediction stage, a chunk whose recovered stop
exceeds the dimension size has that stop clamped to exactly the dimension
size with the start unchanged, and an interior chunk keeps the naive sum of
super-chunk offset and internal slice bounds; the combination stage's write
coordinate is the recovered coordinate with no clamping applied. -/
theorem C4_clamping (shape : Fin 3 → ℕ) (superSlice internal : Fin 3 → Slice)
    (d : Fin 3) :
    (shape d < (recoverSlice (superSlice d) (internal d)).stop →
      predictSpatialCoord shape superSlice internal d =
        ⟨(superSlice d).start + (internal d).start, shape d⟩) ∧
    ((recoverSlice (superSlice d) (internal d)).stop ≤ shape d →
      predictSpatialCoord shape superSlice internal d =
        ⟨(superSlice d).start + (internal d).start,
         (superSlice d).start + (internal d).stop⟩) ∧
    combineSpatialCoord superSlice internal d =
      ⟨(superSlice d).start + (internal d).start,
       (superSlice d).start + (internal d).stop⟩ := by
  refine ⟨fun h => ?_, fun h => ?_, rfl⟩
  · unfold predictSpatialCoord clampStop
    rw [if_pos h]
    rfl
  · unfold predictSpatialCoord clampStop
    rw [if_neg (Nat.not_lt.mpr h)]
    rfl

/-- Closed instance of `C4_clamping`: an edge chunk (recovered slice
`[8, 12)` against dimension 10) is clamped to `[8, 10)` in the prediction
stage, an interior chunk (recovered slice `[0, 4)`) is untouched, and the
combination stage leaves the edge chunk's coordinate at `[8, 12)`. -/
theorem C4_clamping_witness :
    predictSpatialCoord (fun _ => 10) (fun _ => ⟨8, 16⟩) (fun _ => ⟨0, 4⟩) 0 =
      ⟨8, 10⟩ ∧
    predictSpatialCoord (fun _ => 10) (fun _ => ⟨0, 8⟩) (fun _ => ⟨0, 4⟩) 0 =
      ⟨0, 4⟩ ∧
    combineSpatialCoord (fun _ => ⟨8, 16⟩) (fun _ => ⟨0, 4⟩) 0 = ⟨8, 12⟩ :=
  ⟨(C4_clamping (fun _ => 10) (fun _ => ⟨8, 16⟩) (fun _ => ⟨0, 4⟩) 0).1 (by decide),
   (C4_clamping (fun _ => 10) (fun _ => ⟨0, 8⟩) (fun _ => ⟨0, 4⟩) 0).2.1 (by decide),
   (C4_clamping (fun _ => 10) (fun _ => ⟨8, 16⟩) (fun _ => ⟨0, 4⟩) 0).2.2⟩

/-- C5 counterexample: a combination-stage batch whose in-memory shape
`(3, 3, 1, 1, 1)` does not match the expected prediction chunk shape
`(3, 3, 128, 128, 128)` is not skipped: the loop body writes anyway, and
a voxel of the cell-probability store that held the fill value 0 before
the iteration holds 1 afterwards — so the shape-mismatch skip is not the
combination stage's per-batch policy. -/
theorem C5_counterexample :
    (mismatchCombineBatch.dataShape = [3, 3, 128, 128, 128]) = False ∧
    (fun _ => 0 : CellprobStore) (fun _ => 0) = 0 ∧
    combineIterCellprob (fun _ => 0) mismatchCombineBatch (fun _ => 0) = 1 := by
  refine ⟨eq_false (by decide), rfl, ?_⟩
  norm_num [combineIterCellprob, writeCellprobRegion, combineSpatialCoord,
    recoverSlice, inCoord3, inSlice, cell_probability, probability_sum,
    cellprob_threshold, mismatchCombineBatch]

/-- C5 (amended): in the prediction stage, a batch whose in-memory shape
does not match the expected prediction chunk shape is skipped and nothing
is written — the store is left pointwise unchanged, so a store at its fill
value stays at its fill value — while a matching batch is written; the run
continues in both cases.  The combination stage's per-batch loop has no
shape guard: it writes the mask into the recovered region for every batch,
whatever the batch's shape. -/
theorem C5_tail_chunk_skip (prediction_chunksize : List ℕ) (axis : ℕ)
    (shape : Fin 3 → ℕ) (store : GradStore) (b : PredictBatch) (fill : ℚ)
    (cstore : CellprobStore) (cb : CombineBatch) (v : Vox) :
    (b.dataShape ≠ prediction_chunksize →
      predictIter prediction_chunksize axis shape store b = store) ∧
    (b.dataShape ≠ prediction_chunksize → ∀ a c w,
      predictIter prediction_chunksize axis shape (fun _ _ _ => fill) b a c w = fill) ∧
    (b.dataShape = prediction_chunksize →
      predictIter prediction_chunksize axis shape store b =
        writeGradRegion store (predictWriteCoord axis shape b.superSlice b.internal)
          b.y) ∧
    (inCoord3 (combineSpatialCoord cb.superSlice cb.internal) v = true →
      combineIterCellprob cstore cb v =
        cell_probability cb.data
          (fun d => v d - ((combineSpatialCoord cb.superSlice cb.internal) d).start)) := by
  refine ⟨fun h => ?_, fun h a c w => ?_, fun h => ?_, fun h => ?_⟩
  · simp [predictIter, h]
  · simp [predictIter, h]
  · simp [predictIter, h]
  · simp [combineIterCellprob, writeCellprobRegion, h]

/-- Closed instance of `C5_tail_chunk_skip`: a mismatched prediction batch
leaves the store unchanged, a matching one is written, and the combination
loop writes the mask value at an in-region voxel of a mismatched batch. -/
theorem C5_tail_chunk_skip_witness :
    (predictIter [3, 3, 128, 128, 128] 0 (fun _ => 4) (fun _ _ _ => 0)
        ⟨[3, 3, 1, 1, 1], fun _ => ⟨0, 2⟩, fun _ => ⟨0, 1⟩, fun _ _ _ => 5⟩ =
      (fun _ _ _ => 0)) ∧
    (predictIter [3, 3, 1, 1, 1] 0 (fun _ => 4) (fun _ _ _ => 0)
        ⟨[3, 3, 1, 1, 1], fun _ => ⟨0, 2⟩, fun _ => ⟨0, 1⟩, fun _ _ _ => 5⟩ =
      writeGradRegion (fun _ _ _ => 0)
        (predictWriteCoord 0 (fun _ => 4) (fun _ => ⟨0, 2⟩) (fun _ => ⟨0, 1⟩))
        (fun _ _ _ => 5)) ∧
    combineIterCellprob (fun _ => 0) mismatchCombineBatch (fun _ => 0) =
      cell_probability mismatchCombineBatch.data
        (fun d => (fun _ => 0 : Vox) d -
          ((combineSpatialCoord mismatchCombineBatch.superSlice
            mismatchCombineBatch.internal) d).start) := by
  obtain ⟨h1, -, -, -⟩ := C5_tail_chunk_skip [3, 3, 128, 128, 128] 0 (fun _ => 4)
    (fun _ _ _ => 0) ⟨[3, 3, 1, 1, 1], fun _ => ⟨0, 2⟩, fun _ => ⟨0, 1⟩, fun _ _ _ => 5⟩
    0 (fun _ => 0) mismatchCombineBatch (fun _ => 0)
  obtain ⟨-, -, h3, h4⟩ := C5_tail_chunk_skip [3, 3, 1, 1, 1] 0 (fun _ => 4)
    (fun _ _ _ => 0) ⟨[3, 3, 1, 1, 1], fun _ => ⟨0, 2⟩, fun _ => ⟨0, 1⟩, fun _ _ _ => 5⟩
    0 (fun _ => 0) mismatchCombineBatch (fun _ => 0)
  exact ⟨h1 (by decide), h3 rfl, h4 (by decide)⟩

/-- C6 code behavior: with an empty dataset-path list (or a missing results
directory) the driver does not raise — line 58 constructs a `ValueError`
without `raise`, so `segment` can never produce a raised configuration
error; it prints "Provided paths do not exist!" and returns normally, with
no pipeline stage run.  The spec's stated intent (and the dead
`ValueError(...)` expression itself) call for the error to be raised, so
this is a defect in the code. -/
theorem C6_driver_never_raises :
    segment [] true = .printedPathsDoNotExist ∧
    segment ["dataset.zarr"] false = .printedPathsDoNotExist ∧
    ∀ (paths : List String) (ex : Bool),
      segment paths ex = .ranPipeline ∨
      segment paths ex = .printedPathsDoNotExist := by
  refine ⟨rfl, rfl, fun paths ex => ?_⟩
  by_cases h : (paths.length != 0 && ex) = true
  · left
    simp [segment, h]
  · right
    simp [segment, h]

/-- C7: when the requested worker count exceeds the host's allotted
processor count, both the combination stage and the prediction stage raise
a `ValueError` before any I/O occurs: the performed-event list is empty —
no logger is created, no data loader is built, and no output store is
created or opened. -/
theorem C7_worker_guard (n_workers co_cpus : ℕ) (h : co_cpus < n_workers) :
    combine_gradients_prologue n_workers co_cpus = ([], true) ∧
    predict_gradients_prologue n_workers co_cpus = ([], true) := by
  constructor
  · simp [combine_gradients_prologue, h]
  · simp [predict_gradients_prologue, h]

/-- Closed instance of `C7_worker_guard`: requesting 17 workers on a host
allotted 16 processors raises in both stages with no I/O events. -/
theorem C7_worker_guard_witness :
    combine_gradients_prologue 17 16 = ([], true) ∧
    predict_gradients_prologue 17 16 = ([], true) :=
  C7_worker_guard 17 16 (by decide)

/-- C8: the combination stage's flow-field store has shape `(3,)` followed
by the trailing 3 dimensions of the input dataset's shape, chunk shape
`(1,)` followed by the trailing 3 dimensions of the prediction chunk shape,
and a floating-point dtype; the mask store has exactly the trailing-3
spatial shape and spatial chunk shape, and an unsigned-byte dtype. -/
theorem C8_store_shapes (lazyShape prediction_chunksize : List ℕ) :
    (output_combined_gradients_spec lazyShape prediction_chunksize).shape =
      3 :: trailingThree lazyShape ∧
    (output_combined_gradients_spec lazyShape prediction_chunksize).chunks =
      1 :: trailingThree prediction_chunksize ∧
    (output_combined_gradients_spec lazyShape prediction_chunksize).dtype.isFloatingPoint
      = true ∧
    (output_cellprob_spec lazyShape prediction_chunksize).shape =
      trailingThree lazyShape ∧
    (output_cellprob_spec lazyShape prediction_chunksize).chunks =
      trailingThree prediction_chunksize ∧
    (output_cellprob_spec lazyShape prediction_chunksize).dtype.isUnsignedByte
      = true := by
  have key : ∀ l : List ℕ, lastThree l = trailingThree l := by
    intro l
    have h := List.rtake_eq_reverse_take_reverse (l := l) (n := 3)
    simpa [List.rtake, lastThree, trailingThree] using h
  exact ⟨by simp [output_combined_gradients_spec, key],
    by simp [output_combined_gradients_spec, key], rfl,
    by simp [output_cellprob_spec, key],
    by simp [output_cellprob_spec, key], rfl⟩

/-- C9: the axis-0 prediction pass creates the gradients store with shape
`(3, 3)` + dataset shape and chunks `(1, 3)` + prediction chunk shape in
float32; the axis-1 and axis-2 passes reopen it in append mode; the write
coordinate of the axis-`axis` pass starts with
`(slice(axis, axis + 1), slice(0, 3))`; and a write through that coordinate
leaves every element whose leading index differs from `axis` unchanged. -/
theorem C9_per_axis_slab (lazyShape prediction_chunksize : List ℕ) (axis : ℕ)
    (shape : Fin 3 → ℕ) (superSlice internal : Fin 3 → Slice)
    (store : GradStore) (vals : ℕ → ℕ → Vox → ℚ) (a c : ℕ) (v : Vox) :
    predictStoreAction 0 lazyShape prediction_chunksize =
      .createWrite
        ⟨3 :: 3 :: lazyShape, 1 :: 3 :: prediction_chunksize, .float32⟩ ∧
    (axis ≠ 0 →
      predictStoreAction axis lazyShape prediction_chunksize = .openAppend) ∧
    (predictWriteCoord axis shape superSlice internal).axSlice =
      ⟨axis, axis + 1⟩ ∧
    (predictWriteCoord axis shape superSlice internal).chSlice = ⟨0, 3⟩ ∧
    (a ≠ axis →
      writeGradRegion store (predictWriteCoord axis shape superSlice internal)
        vals a c v = store a c v) := by
  refine ⟨rfl, fun h => by simp [predictStoreAction, h], rfl, rfl, fun h => ?_⟩
  have hax : inSlice ⟨axis, axis + 1⟩ a = false := by
    simp only [inSlice, Bool.and_eq_false_iff, decide_eq_false_iff_not]
    omega
  simp [writeGradRegion, predictWriteCoord, hax]

/-- Closed instance of `C9_per_axis_slab`: the axis-1 pass opens the store
in append mode, its write coordinate leads with `(slice(1, 2), slice(0, 3))`,
and the write leaves an element in slab 0 unchanged. -/
theorem C9_per_axis_slab_witness :
    predictStoreAction 0 [10, 10, 10] [4, 10, 10] =
      .createWrite ⟨[3, 3, 10, 10, 10], [1, 3, 4, 10, 10], .float32⟩ ∧
    predictStoreAction 1 [10, 10, 10] [4, 10, 10] = .openAppend ∧
    (predictWriteCoord 1 (fun _ => 10) (fun _ => ⟨0, 4⟩) (fun _ => ⟨0, 4⟩)).axSlice
      = ⟨1, 2⟩ ∧
    (predictWriteCoord 1 (fun _ => 10) (fun _ => ⟨0, 4⟩) (fun _ => ⟨0, 4⟩)).chSlice
      = ⟨0, 3⟩ ∧
    writeGradRegion (fun _ _ _ => 0)
      (predictWriteCoord 1 (fun _ => 10) (fun _ => ⟨0, 4⟩) (fun _ => ⟨0, 4⟩))
      (fun _ _ _ => 5) 0 0 (fun _ => 0) = (0 : ℚ) := by
  obtain ⟨h1, h2, h3, h4, h5⟩ := C9_per_axis_slab [10, 10, 10] [4, 10, 10] 1
    (fun _ => 10) (fun _ => ⟨0, 4⟩) (fun _ => ⟨0, 4⟩) (fun _ _ _ => 0)
    (fun _ _ _ => 5) 0 0 (fun _ => 0)
  exact ⟨h1, h2 (by decide), h3, h4, h5 (by decide)⟩

/-- C10: every value the combination stage writes into the cell-probability
store is exactly 0 or 1 — the mask is a boolean comparison cast to an
unsigned byte — so after a combination write each store element either
keeps its previous value or holds 0 or 1. -/
theorem C10_mask_binary (store : CellprobStore) (b : CombineBatch) (v w : Vox) :
    (cell_probability b.data w = 0 ∨ cell_probability b.data w = 1) ∧
    (combineIterCellprob store b v = store v ∨
     combineIterCellprob store b v = 0 ∨ combineIterCellprob store b v = 1) := by
  constructor
  · unfold cell_probability
    split
    · exact Or.inr rfl
    · exact Or.inl rfl
  · unfold combineIterCellprob writeCellprobRegion
    split
    · right
      unfold cell_probability
      split
      · exact Or.inr rfl
      · exact Or.inl rfl
    · exact Or.inl rfl

end AindZ1
